import Mathlib

/-!
Verification of the `fluids/flow_meter.py` module: differential-pressure
flow-meter correlations (orifice plates, nozzles, venturi tubes, cone and
wedge meters), their dispatch helpers and the unified solver.

Real-valued Python arithmetic is embedded as functions over `ℝ`:
`x**0.5` becomes `Real.sqrt x`, `x**e` with a non-integral float exponent
becomes `Real.rpow`, `math.log10` becomes `Real.logb 10`, `math.exp`
becomes `Real.exp`, `math.acos` becomes `Real.arccos`, `math.pi` becomes
`Real.pi`, and `scipy.constants.inch` is the exact constant `0.0254`.
Python `raise` statements are modelled with `Except` and the `PyErr` type
below; optional (`None`-defaulted) arguments are modelled with `Option`.
-/

open Real

namespace FlowMeter

/-- The failures the module can raise, one constructor per distinct
`raise` site (plus the `TypeError` Python produces when a `None` default
flows into arithmetic):

* `unsupportedTapLocation` — `raise Exception('Unsupported tap location')`
  in `C_Reader_Harris_Gallagher`;
* `solverOneUnknownOnly` — `raise Exception('Solver is capable of solving
  for one of P2, D2, or m only.')` in `differential_pressure_meter_solver`;
* `notImplementedPayload` — `raise Exception(NotImplemented)`, the bare
  generic exception (carrying only the `NotImplemented` singleton, naming
  no meter type) raised by `differential_pressure_meter_dP` for both the
  venturi nozzle and the wedge meter;
* `noneArithmetic` — the `TypeError` raised by Python when arithmetic such
  as `P2/P1` is attempted with a `None` operand. -/
inductive PyErr
  | unsupportedTapLocation
  | solverOneUnknownOnly
  | notImplementedPayload
  | noneArithmetic
deriving DecidableEq

/-- The nine recognised meter-type string tags, in source order:
`'ISO 5167 orifice'`, `'long radius nozzle'`, `'ISA 1932 nozzle'`,
`'venuri nozzle'` (sic), `'as cast convergent venturi tube'`,
`'machined convergent venturi tube'`,
`'rough welded convergent venturi tube'`, `'cone meter'`, `'wedge meter'`. -/
inductive MeterType
  | isoOrifice
  | longRadiusNozzle
  | isa1932Nozzle
  | venturiNozzle
  | asCastVenturiTube
  | machinedConvergentVenturiTube
  | roughWeldedConvergentVenturiTube
  | coneMeter
  | wedgeMeter
deriving DecidableEq

/-- `scipy.constants.inch`, exactly 0.0254 m. -/
def inch : ℝ := 0.0254

/-- The four tap-location strings accepted by `C_Reader_Harris_Gallagher`. -/
def tapsCorner : String := "corner"

def tapsD : String := "D"

def tapsDhalf : String := "D/2"

def tapsFlange : String := "flange"

/-- A representative tap string outside the recognised set. -/
def invalidTaps : String := "invalid"

/-- `orifice_discharge(D, Do, P1, P2, rho, C, expansibility=1.0)`:
`m = (π·Do²/4)·C·√(2·ΔP·ρ)/√(1−β⁴)·ε` with `β = Do/D` (lines 131-133). -/
noncomputable def orifice_discharge (D Do P1 P2 rho C : ℝ)
    (expansibility : ℝ := 1.0) : ℝ :=
  let dP := P1 - P2
  let beta := Do/D
  (π*Do*Do/4)*C*Real.sqrt (2*dP*rho)/Real.sqrt (1.0 - beta^4)*expansibility

/-- `orifice_expansibility(D, Do, P1, P2, k)` (lines 185-187). -/
noncomputable def orifice_expansibility (D Do P1 P2 k : ℝ) : ℝ :=
  let beta := Do/D
  1.0 - (0.351 + 0.256*beta^4 + 0.93*beta^8)*(1.0 - (P2/P1) ^ (1/k))

/-- `orifice_expansibility_1989(D, Do, P1, P2, k)` (line 251). -/
noncomputable def orifice_expansibility_1989 (D Do P1 P2 k : ℝ) : ℝ :=
  1.0 - (0.41 + 0.35*(Do/D)^4)*(P1 - P2)/(k*P1)

/-- `nozzle_expansibility(D, Do, P1, P2, k)` (lines 771-778). -/
noncomputable def nozzle_expansibility (D Do P1 P2 k : ℝ) : ℝ :=
  let beta := Do/D
  let beta2 := beta*beta
  let beta4 := beta2*beta2
  let tau := P2/P1
  let term1 := k*tau ^ (2.0/k)/(k - 1.0)
  let term2 := (1.0 - beta4)/(1.0 - beta4*tau ^ (2.0/k))
  let term3 := (1.0 - tau ^ ((k - 1.0)/k))/(1.0 - tau)
  Real.sqrt (term1*term2*term3)

/-- `C_long_radius_nozzle(D, Do, rho, mu, m)` (lines 824-828). -/
noncomputable def C_long_radius_nozzle (D Do rho mu m : ℝ) : ℝ :=
  let A_pipe := π/4*D*D
  let v := m/(A_pipe*rho)
  let Re_D := rho*v*D/mu
  let beta := Do/D
  0.9965 - 0.00653*Real.sqrt beta*Real.sqrt (1000000.0/Re_D)

/-- `C_ISA_1932_nozzle(D, Do, rho, mu, m)` (lines 875-881). -/
noncomputable def C_ISA_1932_nozzle (D Do rho mu m : ℝ) : ℝ :=
  let A_pipe := π/4*D*D
  let v := m/(A_pipe*rho)
  let Re_D := rho*v*D/mu
  let beta := Do/D
  0.9900 - 0.2262*beta ^ (4.1 : ℝ)
    - (0.00175*beta^2 - 0.0033*beta ^ (4.15 : ℝ))*(1000000.0/Re_D) ^ (1.15 : ℝ)

/-- `C_venturi_nozzle(D, Do)` (lines 919-920); note the implemented
literal is 0.198 (the docstring says 0.196). -/
noncomputable def C_venturi_nozzle (D Do : ℝ) : ℝ :=
  let beta := Do/D
  0.9858 - 0.198*beta ^ (4.5 : ℝ)

/-- `discharge_coefficient_to_K(D, Do, C)` (lines 522-525). -/
noncomputable def discharge_coefficient_to_K (D Do C : ℝ) : ℝ :=
  let beta := Do/D
  let beta2 := beta*beta
  let beta4 := beta2*beta2
  (Real.sqrt (1.0 - beta4*(1.0 - C*C))/(C*beta2) - 1.0)^2

/-- `K_to_discharge_coefficient(D, Do, K)` (lines 573-578). -/
noncomputable def K_to_discharge_coefficient (D Do K : ℝ) : ℝ :=
  let beta := Do/D
  let beta2 := beta*beta
  let beta4 := beta2*beta2
  let root_K := Real.sqrt K
  let common_term := 2.0*root_K*beta4 + K*beta4
  Real.sqrt (-beta4/common_term + 1.0/common_term)

/-- `dP_orifice(D, Do, P1, P2, C)` (lines 633-639). -/
noncomputable def dP_orifice (D Do P1 P2 C : ℝ) : ℝ :=
  let beta := Do/D
  let beta2 := beta*beta
  let beta4 := beta2*beta2
  let dP := P1 - P2
  (Real.sqrt (1.0 - beta4*(1.0 - C*C)) - C*beta2)/
    (Real.sqrt (1.0 - beta4*(1.0 - C*C)) + C*beta2)*dP

/-- `diameter_ratio_cone_meter(D, Dc)` (lines 1062-1063). -/
noncomputable def diameter_ratio_cone_meter (D Dc : ℝ) : ℝ :=
  let D_ratio := Dc/D
  Real.sqrt (1.0 - D_ratio*D_ratio)

/-- `cone_meter_expansibility_Stewart(D, Dc, P1, P2, k)` (lines 1115-1117). -/
noncomputable def cone_meter_expansibility_Stewart (D Dc P1 P2 k : ℝ) : ℝ :=
  let dP := P1 - P2
  let beta := diameter_ratio_cone_meter D Dc
  1.0 - (0.649 + 0.696*beta^4)*dP/(k*P1)

/-- `dP_cone_meter(D, Dc, P1, P2)` (lines 1162-1164). -/
noncomputable def dP_cone_meter (D Dc P1 P2 : ℝ) : ℝ :=
  let dP := P1 - P2
  let beta := diameter_ratio_cone_meter D Dc
  (1.09 - 0.813*beta)*dP

/-- `diameter_ratio_wedge_meter(D, H)` (lines 1207-1213). -/
noncomputable def diameter_ratio_wedge_meter (D H : ℝ) : ℝ :=
  let H_D := H/D
  let t0 := 1.0 - 2.0*H_D
  let t1 := Real.arccos t0
  let t2 := 2.0*t0
  let t3 := Real.sqrt (H_D - H_D*H_D)
  let t4 := t1 - t2*t3
  Real.sqrt (1/π*t4)

/-- `C_wedge_meter_Miller(D, H)` (lines 1271-1280): piecewise in `D` with
inclusive-≤ breakpoints at 0.7 inch and 1.4 inch. -/
noncomputable def C_wedge_meter_Miller (D H : ℝ) : ℝ :=
  let beta := diameter_ratio_wedge_meter D H
  if D ≤ 0.7*inch then 0.7883 + 0.107*(1 - beta*beta)
  else if D ≤ 1.4*inch then 0.6143 + 0.718*(1 - beta*beta)
  else 0.5433 + 0.2453*(1 - beta*beta)

/-- The tap-parameter selection at lines 371-379 of
`C_Reader_Harris_Gallagher`, factored out: returns `(L1, L2')` for a
recognised tap string and the `Exception('Unsupported tap location')`
otherwise. -/
noncomputable def orifice_taps_L (D : ℝ) (taps : String) :
    Except PyErr (ℝ × ℝ) :=
  if taps = "corner" then .ok (0.0, 0.0)
  else if taps = "D" ∨ taps = "D/2" then .ok (1.0, 0.47)
  else if taps = "flange" then .ok (0.0254/D, 0.0254/D)
  else .error .unsupportedTapLocation

/-- `C_Reader_Harris_Gallagher(D, Do, rho, mu, m, taps)` (lines 366-415). -/
noncomputable def C_Reader_Harris_Gallagher (D Do rho mu m : ℝ)
    (taps : String) : Except PyErr ℝ :=
  match orifice_taps_L D taps with
  | .error e => .error e
  | .ok (L1, L2_prime) =>
    let A_pipe := π/4*D*D
    let v := m/(A_pipe*rho)
    let Re_D := rho*v*D/mu
    let beta := Do/D
    let beta2 := beta*beta
    let beta4 := beta2*beta2
    let beta8 := beta4*beta4
    let A := (19000.0*beta/Re_D) ^ (0.8 : ℝ)
    let M2_prime := 2*L2_prime/(1.0 - beta)
    let delta_C_upstream := (0.043 + 0.080*Real.exp (-10.0*L1)
        - 0.123*Real.exp (-7.0*L1))*(1.0 - 0.11*A)*beta4/(1.0 - beta4)
    -- the max factor below is not in the ISO standard
    let delta_C_downstream := -0.031*(M2_prime - 0.8*M2_prime ^ (1.1 : ℝ))
        *beta ^ (1.3 : ℝ)*(1.0 + 8*max (Real.logb 10 (3700.0/Re_D)) 0.0)
    -- the max term below is not in the ISO standard
    let C_inf_C_s := 0.5961 + 0.0261*beta2 - 0.216*beta8
        + 0.000521*(1000000.0*beta/Re_D) ^ (0.7 : ℝ)
        + (0.0188 + 0.0063*A)*beta ^ (3.5 : ℝ)
          *(max ((1000000.0/Re_D) ^ (0.3 : ℝ)) (22.7 - 4700.0*(Re_D/1000000.0)))
    let C := C_inf_C_s + delta_C_upstream + delta_C_downstream
    if D < 0.07112 then
      .ok (C + 0.011*(0.75 - beta)*max (2.8 - D/0.0254) 0.0)
    else .ok C

/-- One-dimensional linear interpolation on a list of `(x, y)` nodes with
strictly increasing `x`, matching `numpy.interp`: values left of the first
node clamp to the first `y`, values right of the last node clamp to the
last `y`, and interior values interpolate linearly on their segment. -/
noncomputable def interpP (x : ℝ) : List (ℝ × ℝ) → ℝ
  | [] => 0
  | [p] => p.2
  | p :: q :: rest =>
    if x ≤ p.1 then p.2
    else if x ≤ q.1 then p.2 + (q.2 - p.2)*(x - p.1)/(q.1 - p.1)
    else interpP x (q :: rest)

/-- `np.interp(x, xs, ys)` for equal-length sorted breakpoint tables. -/
noncomputable def interp (x : ℝ) (xs ys : List ℝ) : ℝ :=
  interpP x (xs.zip ys)

/-- `venturi_tube_betas` (lines 929-937): the 46 beta breakpoints. -/
def venturi_tube_betas : List ℝ :=
  [0.299160, 0.299470, 0.312390, 0.319010, 0.326580, 0.337290,
   0.342020, 0.347060, 0.359030, 0.365960, 0.372580, 0.384870,
   0.385810, 0.401250, 0.405350, 0.415740, 0.424250, 0.434010,
   0.447880, 0.452590, 0.471810, 0.473090, 0.493540, 0.499240,
   0.516530, 0.523800, 0.537630, 0.548060, 0.556840, 0.573890,
   0.582350, 0.597820, 0.601560, 0.622650, 0.626490, 0.649480,
   0.650990, 0.668700, 0.675870, 0.688550, 0.693180, 0.706180,
   0.713330, 0.723510, 0.749540, 0.749650]

/-- `venturi_tube_dP_high` (lines 939-949): loss ratios for the
small-diameter (65 mm) class. -/
def venturi_tube_dP_high : List ℝ :=
  [0.164534, 0.164504, 0.163591, 0.163508, 0.163439,
   0.162652, 0.162224, 0.161866, 0.161238, 0.160786,
   0.160295, 0.159280, 0.159193, 0.157776, 0.157467,
   0.156517, 0.155323, 0.153835, 0.151862, 0.151154,
   0.147840, 0.147613, 0.144052, 0.143050, 0.140107,
   0.138981, 0.136794, 0.134737, 0.132847, 0.129303,
   0.127637, 0.124758, 0.124006, 0.119269, 0.118449,
   0.113605, 0.113269, 0.108995, 0.107109, 0.103688,
   0.102529, 0.099567, 0.097791, 0.095055, 0.087681,
   0.087648]

/-- `venturi_tube_dP_low` (lines 951-961): loss ratios for the
large-diameter (500 mm) class. -/
def venturi_tube_dP_low : List ℝ :=
  [0.089232, 0.089218, 0.088671, 0.088435, 0.088206,
   0.087853, 0.087655, 0.087404, 0.086693, 0.086241,
   0.085813, 0.085142, 0.085102, 0.084446, 0.084202,
   0.083301, 0.082470, 0.081650, 0.080582, 0.080213,
   0.078509, 0.078378, 0.075989, 0.075226, 0.072700,
   0.071598, 0.069562, 0.068128, 0.066986, 0.064658,
   0.063298, 0.060872, 0.060378, 0.057879, 0.057403,
   0.054091, 0.053879, 0.051726, 0.050931, 0.049362,
   0.048675, 0.046522, 0.045381, 0.043840, 0.039913,
   0.039896]

/-- `D_bound_venturi_tube` (line 964): the two-point diameter table. -/
def D_bound_venturi_tube : List ℝ := [0.065, 0.5]

/-- `dP_venturi_tube(D, Do, P1, P2)` (lines 1020-1025): two-stage
linear-interpolation lookup of the loss ratio, times `P1 − P2`. -/
noncomputable def dP_venturi_tube (D Do P1 P2 : ℝ) : ℝ :=
  let beta := Do/D
  let epsilon_D65 := interp beta venturi_tube_betas venturi_tube_dP_high
  let epsilon_D500 := interp beta venturi_tube_betas venturi_tube_dP_low
  let epsilon := interp D D_bound_venturi_tube [epsilon_D65, epsilon_D500]
  epsilon*(P1 - P2)

/-- `CONE_METER_C = 0.82` (line 1396). -/
def CONE_METER_C : ℝ := 0.82

/-- `ROUGH_WELDED_CONVERGENT_VENTURI_TUBE_C = 0.985` (line 1397). -/
def ROUGH_WELDED_CONVERGENT_VENTURI_TUBE_C : ℝ := 0.985

/-- `MACHINED_CONVERGENT_VENTURI_TUBE_C = 0.995` (line 1398). -/
def MACHINED_CONVERGENT_VENTURI_TUBE_C : ℝ := 0.995

/-- `AS_CAST_VENTURI_TUBE_C = 0.984` (line 1399). -/
def AS_CAST_VENTURI_TUBE_C : ℝ := 0.984

/-- `_differential_pressure_C_epsilon` (lines 1402-1435; the Python name
carries a leading underscore): dispatches on the meter type and returns
the pair `(epsilon, C)` — expansibility FIRST, discharge coefficient
SECOND, exactly as the Python `return epsilon, C` does. -/
noncomputable def differential_pressure_C_epsilon (D D2 m P1 P2 rho mu k : ℝ)
    (meter_type : MeterType) (taps : String) : Except PyErr (ℝ × ℝ) :=
  match meter_type with
  | .isoOrifice =>
    match C_Reader_Harris_Gallagher D D2 rho mu m taps with
    | .error e => .error e
    | .ok C => .ok (orifice_expansibility D D2 P1 P2 k, C)
  | .longRadiusNozzle =>
    .ok (nozzle_expansibility D D2 P1 P2 k, C_long_radius_nozzle D D2 rho mu m)
  | .isa1932Nozzle =>
    .ok (nozzle_expansibility D D2 P1 P2 k, C_ISA_1932_nozzle D D2 rho mu m)
  | .venturiNozzle =>
    .ok (nozzle_expansibility D D2 P1 P2 k, C_venturi_nozzle D D2)
  | .asCastVenturiTube =>
    .ok (nozzle_expansibility D D2 P1 P2 k, AS_CAST_VENTURI_TUBE_C)
  | .machinedConvergentVenturiTube =>
    .ok (nozzle_expansibility D D2 P1 P2 k, MACHINED_CONVERGENT_VENTURI_TUBE_C)
  | .roughWeldedConvergentVenturiTube =>
    .ok (nozzle_expansibility D D2 P1 P2 k, ROUGH_WELDED_CONVERGENT_VENTURI_TUBE_C)
  | .coneMeter =>
    .ok (cone_meter_expansibility_Stewart D D2 P1 P2 k, CONE_METER_C)
  | .wedgeMeter =>
    .ok (orifice_expansibility_1989 D D2 P1 P2 k, C_wedge_meter_Miller D D2)

/-- The inner mass-flow evaluation of every `to_solve` closure in
`differential_pressure_meter_solver` (lines 1514-1549), exactly as coded:
the Python unpacks `C, epsilon = _differential_pressure_C_epsilon(...)`
— so its local `C` is the pair's FIRST component (actually the
expansibility) and its local `epsilon` is the SECOND (actually the
discharge coefficient) — and then calls
`orifice_discharge(..., C=C, expansibility=epsilon)`. -/
noncomputable def solver_m_calc_as_coded (D D2 m P1 P2 rho mu k : ℝ)
    (meter_type : MeterType) (taps : String) : Except PyErr ℝ :=
  match differential_pressure_C_epsilon D D2 m P1 P2 rho mu k meter_type taps with
  | .error e => .error e
  | .ok p => .ok (orifice_discharge D D2 P1 P2 rho p.1 p.2)

/-- The correctly ordered pairing of the same computation: the pair's
SECOND component (the discharge coefficient) passed as `C` and its FIRST
component (the expansibility) passed as `expansibility`. -/
noncomputable def solver_m_calc_spec_pairing (D D2 m P1 P2 rho mu k : ℝ)
    (meter_type : MeterType) (taps : String) : Except PyErr ℝ :=
  match differential_pressure_C_epsilon D D2 m P1 P2 rho mu k meter_type taps with
  | .error e => .error e
  | .ok p => .ok (orifice_discharge D D2 P1 P2 rho p.2 p.1)

/-- The unknown the unified solver ends up solving for. -/
inductive SolverUnknown
  | m
  | D2
  | P2
  | P1
deriving DecidableEq

/-- The `if m is None: ... elif D2 is None: ... elif P2 is None: ...
elif P1 is None: ... else: raise` chain of
`differential_pressure_meter_solver` (lines 1514-1551), recording which
unknown the selected branch solves for.  The chain inspects `m`, `D2`,
`P2`, `P1` in that order, so when several are absent the first absent one
in that priority order is selected; only when all four are present does
the `Exception('Solver is capable of solving for one of P2, D2, or m
only.')` fire. -/
def differential_pressure_meter_solver_branch (D2 P1 P2 m : Option ℝ) :
    Except PyErr SolverUnknown :=
  match m with
  | none => .ok .m
  | some _ =>
    match D2 with
    | none => .ok .D2
    | some _ =>
      match P2 with
      | none => .ok .P2
      | some _ =>
        match P1 with
        | none => .ok .P1
        | some _ => .error .solverOneUnknownOnly

/-- The observable outcome of a `differential_pressure_meter_solver` call
at the argument-presence level.  After the branch is selected, the root
finder immediately evaluates the branch's `to_solve` residual (`newton`
evaluates it at the seed 2.81; `brenth` already builds its bracket from
`P1` or `P2`), and that evaluation performs arithmetic with every one of
`D2`, `P1`, `P2` other than the solved-for unknown (they flow into
`_differential_pressure_C_epsilon` and `orifice_discharge`).  If any of
them is still `None`, Python raises a `TypeError` at that point, so the
call fails even though the exactly-one-unknown guard never fired. -/
def differential_pressure_meter_solver_outcome (D2 P1 P2 m : Option ℝ) :
    Except PyErr SolverUnknown :=
  match differential_pressure_meter_solver_branch D2 P1 P2 m with
  | .error e => .error e
  | .ok .m =>
    match D2, P1, P2 with
    | some _, some _, some _ => .ok .m
    | _, _, _ => .error .noneArithmetic
  | .ok .D2 =>
    match P1, P2 with
    | some _, some _ => .ok .D2
    | _, _ => .error .noneArithmetic
  | .ok .P2 =>
    match P1 with
    | some _ => .ok .P2
    | none => .error .noneArithmetic
  | .ok .P1 => .ok .P1

/-- How many of the four solvable arguments are absent. -/
def absentCount (D2 P1 P2 m : Option ℝ) : ℕ :=
  (cond D2.isNone 1 0) + (cond P1.isNone 1 0)
    + (cond P2.isNone 1 0) + (cond m.isNone 1 0)

/-- `differential_pressure_meter_dP(D, D2, P1, P2, C, meter_type)`
(lines 1601-1622).  For the venturi nozzle and the wedge meter the source
executes `raise Exception(NotImplemented)` — the same bare generic
exception for both, naming no meter type. -/
noncomputable def differential_pressure_meter_dP (D D2 P1 P2 C : ℝ)
    (meter_type : MeterType) : Except PyErr ℝ :=
  match meter_type with
  | .isoOrifice => .ok (dP_orifice D D2 P1 P2 C)
  | .longRadiusNozzle => .ok (dP_orifice D D2 P1 P2 C)
  | .isa1932Nozzle => .ok (dP_orifice D D2 P1 P2 C)
  | .venturiNozzle => .error .notImplementedPayload
  | .asCastVenturiTube => .ok (dP_venturi_tube D D2 P1 P2)
  | .machinedConvergentVenturiTube => .ok (dP_venturi_tube D D2 P1 P2)
  | .roughWeldedConvergentVenturiTube => .ok (dP_venturi_tube D D2 P1 P2)
  | .coneMeter => .ok (dP_cone_meter D D2 P1 P2)
  | .wedgeMeter => .error .notImplementedPayload

/-- The pipe Reynolds number of `C_Reader_Harris_Gallagher` step 1:
`Re_D = rho·v·D/mu` with `v = m/(π/4·D²·rho)`. -/
noncomputable def Re_pipe (D rho mu m : ℝ) : ℝ := rho*(m/(π/4*D*D*rho))*D/mu

/-- The degree-18 truncation of the cosine Taylor series, used to obtain
rational enclosures of `Real.cos` at rational points. -/
noncomputable def cosPoly (y : ℝ) : ℝ :=
  1 - y^2/2 + y^4/24 - y^6/720 + y^8/40320 - y^10/3628800 + y^12/479001600
    - y^14/87178291200 + y^16/20922789888000 - y^18/6402373705728000

/-! ## Theorems -/

/-- C10: the internal dispatch helper returns `(expansibility, C)` while
every solver branch unpacks `(C, epsilon)`, swapping the two values; the
mass flow each residual computes is nevertheless identical to the
correctly ordered pairing, because `orifice_discharge` depends on its `C`
and `expansibility` arguments only through their product: swapping them
never changes the result. -/
theorem orifice_discharge_C_expansibility_swap :
    (∀ D Do P1 P2 rho a b : ℝ, orifice_discharge D Do P1 P2 rho a b
        = orifice_discharge D Do P1 P2 rho b a)
    ∧ ∀ (D D2 m P1 P2 rho mu k : ℝ) (meter_type : MeterType) (taps : String),
        solver_m_calc_as_coded D D2 m P1 P2 rho mu k meter_type taps
          = solver_m_calc_spec_pairing D D2 m P1 P2 rho mu k meter_type taps := by
  have hswap : ∀ D Do P1 P2 rho a b : ℝ, orifice_discharge D Do P1 P2 rho a b
      = orifice_discharge D Do P1 P2 rho b a := by
    intro D Do P1 P2 rho a b
    simp only [orifice_discharge]
    ring
  refine ⟨hswap, ?_⟩
  intro D D2 m P1 P2 rho mu k meter_type taps
  unfold solver_m_calc_as_coded solver_m_calc_spec_pairing
  cases differential_pressure_C_epsilon D D2 m P1 P2 rho mu k meter_type taps with
  | error e => rfl
  | ok p => exact congrArg Except.ok (hswap D D2 P1 P2 rho p.1 p.2)

/-- C1 counterexample: with `m` and `D2` both absent (and `P1`, `P2`
supplied), the branch selected is indeed the `m` branch, but the call does
NOT proceed silently: the residual immediately performs arithmetic with
the absent `D2`, so Python raises a `TypeError` — an error IS raised,
contradicting the claim's "no error is raised". -/
theorem solver_two_absent_raises :
    differential_pressure_meter_solver_branch none (some 200000) (some 183000) none
      = .ok .m
    ∧ differential_pressure_meter_solver_outcome none (some 200000) (some 183000) none
      = .error .noneArithmetic :=
  ⟨rfl, rfl⟩

/-- C1 (amended): if all four of `m`, `D2`, `P2`, `P1` are supplied the
call fails with the InvalidInput guard (`'Solver is capable of solving for
one of P2, D2, or m only.'`); the branch selected is always the first
absent argument in the fixed priority order `m`, `D2`, `P2`, `P1`; when
exactly one is absent that unknown is solved for with no error; but when
more than one is absent the call fails with a `TypeError` from arithmetic
on the remaining absent argument rather than proceeding silently. -/
theorem solver_unknown_priority :
    (∀ d2 p1 p2 mv : ℝ,
      differential_pressure_meter_solver_branch
          (some d2) (some p1) (some p2) (some mv)
        = .error .solverOneUnknownOnly)
    ∧ (∀ oD2 oP1 oP2 : Option ℝ,
      differential_pressure_meter_solver_branch oD2 oP1 oP2 none = .ok .m)
    ∧ (∀ (oP1 oP2 : Option ℝ) (mv : ℝ),
      differential_pressure_meter_solver_branch none oP1 oP2 (some mv) = .ok .D2)
    ∧ (∀ (d2 : ℝ) (oP1 : Option ℝ) (mv : ℝ),
      differential_pressure_meter_solver_branch (some d2) oP1 none (some mv)
        = .ok .P2)
    ∧ (∀ d2 p2 mv : ℝ,
      differential_pressure_meter_solver_branch (some d2) none (some p2) (some mv)
        = .ok .P1)
    ∧ (∀ d2 p1 p2 : ℝ,
      differential_pressure_meter_solver_outcome (some d2) (some p1) (some p2) none
        = .ok .m)
    ∧ (∀ p1 p2 mv : ℝ,
      differential_pressure_meter_solver_outcome none (some p1) (some p2) (some mv)
        = .ok .D2)
    ∧ (∀ d2 p1 mv : ℝ,
      differential_pressure_meter_solver_outcome (some d2) (some p1) none (some mv)
        = .ok .P2)
    ∧ (∀ d2 p2 mv : ℝ,
      differential_pressure_meter_solver_outcome (some d2) none (some p2) (some mv)
        = .ok .P1)
    ∧ ∀ oD2 oP1 oP2 om : Option ℝ, 2 ≤ absentCount oD2 oP1 oP2 om →
      differential_pressure_meter_solver_outcome oD2 oP1 oP2 om
        = .error .noneArithmetic := by
  refine ⟨fun d2 p1 p2 mv => rfl, fun oD2 oP1 oP2 => rfl,
    fun oP1 oP2 mv => rfl, fun d2 oP1 mv => rfl, fun d2 p2 mv => rfl,
    fun d2 p1 p2 => rfl, fun p1 p2 mv => rfl, fun d2 p1 mv => rfl,
    fun d2 p2 mv => rfl, ?_⟩
  intro oD2 oP1 oP2 om h
  cases oD2 <;> cases oP1 <;> cases oP2 <;> cases om <;>
    simp [absentCount] at h <;> rfl

/-- Witness for `solver_unknown_priority`: a concrete three-absent call
fails with the `TypeError`-style error. -/
theorem solver_unknown_priority_witness :
    differential_pressure_meter_solver_outcome none none (some 183000)
        (some 7.7) = .error .noneArithmetic :=
  solver_unknown_priority.2.2.2.2.2.2.2.2.2 none none (some 183000) (some 7.7)
    (by decide)

/-- C2 counterexample: for the venturi nozzle and the wedge meter,
`differential_pressure_meter_dP` raises the very same bare
`Exception(NotImplemented)` — a generic failure that carries no meter-type
information (the two errors are equal, so the error cannot name the meter
type), contradicting "a clear NotSupported error naming the meter type
rather than a generic failure". -/
theorem dP_meter_not_implemented_generic :
    differential_pressure_meter_dP 0.07366 0.05 200000 183000 0.61
        .venturiNozzle
      = differential_pressure_meter_dP 0.07366 0.05 200000 183000 0.61
        .wedgeMeter
    ∧ differential_pressure_meter_dP 0.07366 0.05 200000 183000 0.61
        .venturiNozzle = .error .notImplementedPayload :=
  ⟨rfl, rfl⟩

/-- C2 (amended): `differential_pressure_meter_dP` returns `dP_orifice`'s
value for the ISO 5167 orifice, long radius nozzle and ISA 1932 nozzle,
`dP_venturi_tube`'s value for the three venturi-tube classes, and
`dP_cone_meter`'s value for the cone meter; for the venturi nozzle and the
wedge meter (and only those) it fails — with the same generic
`Exception(NotImplemented)` for both, which names no meter type. -/
theorem dP_meter_dispatch : ∀ D D2 P1 P2 C : ℝ,
    differential_pressure_meter_dP D D2 P1 P2 C .isoOrifice
        = .ok (dP_orifice D D2 P1 P2 C)
    ∧ differential_pressure_meter_dP D D2 P1 P2 C .longRadiusNozzle
        = .ok (dP_orifice D D2 P1 P2 C)
    ∧ differential_pressure_meter_dP D D2 P1 P2 C .isa1932Nozzle
        = .ok (dP_orifice D D2 P1 P2 C)
    ∧ differential_pressure_meter_dP D D2 P1 P2 C .venturiNozzle
        = .error .notImplementedPayload
    ∧ differential_pressure_meter_dP D D2 P1 P2 C .asCastVenturiTube
        = .ok (dP_venturi_tube D D2 P1 P2)
    ∧ differential_pressure_meter_dP D D2 P1 P2 C .machinedConvergentVenturiTube
        = .ok (dP_venturi_tube D D2 P1 P2)
    ∧ differential_pressure_meter_dP D D2 P1 P2 C
          .roughWeldedConvergentVenturiTube
        = .ok (dP_venturi_tube D D2 P1 P2)
    ∧ differential_pressure_meter_dP D D2 P1 P2 C .coneMeter
        = .ok (dP_cone_meter D D2 P1 P2)
    ∧ differential_pressure_meter_dP D D2 P1 P2 C .wedgeMeter
        = .error .notImplementedPayload :=
  fun _ _ _ _ _ => ⟨rfl, rfl, rfl, rfl, rfl, rfl, rfl, rfl, rfl⟩

/-- C5: the tap-parameter selection of `C_Reader_Harris_Gallagher`:
`'corner'` gives `L1 = L2' = 0`, `'D'` and `'D/2'` give `L1 = 1`,
`L2' = 0.47`, `'flange'` gives `L1 = L2' = 0.0254/D`, and every other
string makes the whole coefficient computation fail with the
`Exception('Unsupported tap location')`, for all `D, Do, rho, mu, m`. -/
theorem C_RHG_taps_selection :
    (∀ D : ℝ, orifice_taps_L D tapsCorner = .ok (0.0, 0.0))
    ∧ (∀ D : ℝ, orifice_taps_L D tapsD = .ok (1.0, 0.47))
    ∧ (∀ D : ℝ, orifice_taps_L D tapsDhalf = .ok (1.0, 0.47))
    ∧ (∀ D : ℝ, orifice_taps_L D tapsFlange = .ok (0.0254/D, 0.0254/D))
    ∧ ∀ (taps : String) (D Do rho mu m : ℝ), taps ≠ tapsCorner → taps ≠ tapsD →
        taps ≠ tapsDhalf → taps ≠ tapsFlange →
        C_Reader_Harris_Gallagher D Do rho mu m taps
          = .error .unsupportedTapLocation := by
  refine ⟨fun D => by simp +decide [orifice_taps_L, tapsCorner],
    fun D => by simp +decide [orifice_taps_L, tapsD],
    fun D => by simp +decide [orifice_taps_L, tapsDhalf],
    fun D => by simp +decide [orifice_taps_L, tapsFlange], ?_⟩
  intro taps D Do rho mu m h1 h2 h3 h4
  simp only [tapsCorner] at h1
  simp only [tapsD] at h2
  simp only [tapsDhalf] at h3
  simp only [tapsFlange] at h4
  have htaps : orifice_taps_L D taps = .error .unsupportedTapLocation := by
    unfold orifice_taps_L
    rw [if_neg h1, if_neg ?_, if_neg h4]
    rintro (h | h)
    · exact h2 h
    · exact h3 h
  unfold C_Reader_Harris_Gallagher
  rw [htaps]

/-- C6: `orifice_discharge` is exactly
`(π·Do²/4)·C·√(2·(P1−P2)·rho)/√(1−(Do/D)⁴)·expansibility`, the
`expansibility` argument defaults to 1.0, there is no validation or error
path (the function is total), and at
`D=0.0739, Do=0.0222, P1=1e5, P2=9.9e4, rho=1.1646, C=0.5988,
expansibility=0.9975` the value is `0.01120390943807026` within `1e-9`
relative tolerance. -/
theorem orifice_discharge_formula_and_literal :
    (∀ D Do P1 P2 rho C e : ℝ, orifice_discharge D Do P1 P2 rho C e
        = (π*Do^2/4)*C*Real.sqrt (2*(P1 - P2)*rho)/Real.sqrt (1 - (Do/D)^4)*e)
    ∧ (∀ D Do P1 P2 rho C : ℝ, orifice_discharge D Do P1 P2 rho C
        = orifice_discharge D Do P1 P2 rho C 1.0)
    ∧ |orifice_discharge 0.0739 0.0222 100000 99000 1.1646 0.5988 0.9975
        - 0.01120390943807026| ≤ 1e-9 * 0.01120390943807026 := by
  refine ⟨?_, fun _ _ _ _ _ _ => rfl, ?_⟩
  · intro D Do P1 P2 rho C e
    simp only [orifice_discharge]
    ring_nf
  · have hπl := Real.pi_gt_d20
    have hπu := Real.pi_lt_d20
    have hs1l : (48.26178612525649158850:ℝ)
        ≤ Real.sqrt (2*((100000:ℝ) - 99000)*1.1646) :=
      (Real.le_sqrt' (by norm_num)).mpr (by norm_num)
    have hs1u : Real.sqrt (2*((100000:ℝ) - 99000)*1.1646)
        ≤ 48.26178612525649158851 :=
      Real.sqrt_le_iff.mpr ⟨by norm_num, by norm_num⟩
    have hs2l : (0.99591970956362812531:ℝ)
        ≤ Real.sqrt (1.0 - ((0.0222:ℝ)/0.0739)^4) :=
      (Real.le_sqrt' (by norm_num)).mpr (by norm_num)
    have hs2u : Real.sqrt (1.0 - ((0.0222:ℝ)/0.0739)^4)
        ≤ 0.99591970956362812532 :=
      Real.sqrt_le_iff.mpr ⟨by norm_num, by norm_num⟩
    have hs2pos : (0:ℝ) < Real.sqrt (1.0 - ((0.0222:ℝ)/0.0739)^4) := by
      linarith
    simp only [orifice_discharge]
    rw [abs_le]
    constructor
    · have hlow : (3.14159265358979323846*0.0222*0.0222/4)*0.5988
          *48.26178612525649158850/0.99591970956362812532*0.9975
          ≤ (π*0.0222*0.0222/4)*0.5988
            *Real.sqrt (2*((100000:ℝ) - 99000)*1.1646)
            /Real.sqrt (1.0 - ((0.0222:ℝ)/0.0739)^4)*0.9975 := by
        gcongr
      nlinarith [hlow]
    · have hhigh : (π*0.0222*0.0222/4)*0.5988
            *Real.sqrt (2*((100000:ℝ) - 99000)*1.1646)
            /Real.sqrt (1.0 - ((0.0222:ℝ)/0.0739)^4)*0.9975
          ≤ (3.14159265358979323847*0.0222*0.0222/4)*0.5988
            *48.26178612525649158851/0.99591970956362812531*0.9975 := by
        gcongr
      nlinarith [hhigh]

/-- A value at or left of the first node interpolates to the first `y`. -/
lemma interpP_le_head (x : ℝ) (p : ℝ × ℝ) (l : List (ℝ × ℝ)) (h : x ≤ p.1) :
    interpP x (p :: l) = p.2 := by
  cases l with
  | nil => rfl
  | cons q t =>
    rw [interpP, if_pos h]

/-- On a two-node table, a value at or right of the second node clamps to
the second `y`. -/
lemma interpP_pair_right (x a b ya yb : ℝ) (hab : a < b) (h : b ≤ x) :
    interpP x [(a, ya), (b, yb)] = yb := by
  rw [interpP, if_neg (by simp only [not_le]; linarith)]
  by_cases h2 : x ≤ b
  · rw [if_pos h2]
    have hx : x = b := le_antisymm h2 h
    subst hx
    have hne : x - a ≠ 0 := sub_ne_zero.mpr (ne_of_gt hab)
    field_simp
  · rw [if_neg h2]
    rfl

/-- A value strictly right of every node interpolates to the last `y`. -/
lemma interpP_of_forall_lt (x : ℝ) : ∀ (l : List (ℝ × ℝ)) (y : ℝ × ℝ),
    l.getLast? = some y → (∀ p ∈ l, p.1 < x) → interpP x l = y.2 := by
  intro l
  induction l with
  | nil => intro y hy _; simp at hy
  | cons p t ih =>
    intro y hy hall
    cases t with
    | nil =>
      simp only [List.getLast?_singleton, Option.some.injEq] at hy
      subst hy
      rfl
    | cons q t' =>
      have hp : p.1 < x := hall p (by simp)
      have hq : q.1 < x := hall q (by simp)
      rw [interpP, if_neg (not_le.mpr hp), if_neg (not_le.mpr hq)]
      refine ih y ?_ ?_
      · rw [List.getLast?_cons_cons] at hy
        exact hy
      · intro r hr
        exact hall r (List.mem_cons_of_mem p hr)

/-- Beta above the last breakpoint 0.74965 clamps the high-loss table to
its last entry. -/
lemma interp_high_clamp_above (b : ℝ) (h : 0.74965 < b) :
    interp b venturi_tube_betas venturi_tube_dP_high = 0.087648 := by
  unfold interp venturi_tube_betas venturi_tube_dP_high
  refine interpP_of_forall_lt b _ (0.749650, 0.087648) rfl ?_
  intro p hp
  fin_cases hp <;> norm_num <;> linarith

/-- Beta at or below the first breakpoint 0.29916 clamps the high-loss
table to its first entry. -/
lemma interp_high_clamp_below (b : ℝ) (h : b ≤ 0.29916) :
    interp b venturi_tube_betas venturi_tube_dP_high = 0.164534 := by
  unfold interp venturi_tube_betas venturi_tube_dP_high
  simp only [List.zip_cons_cons]
  exact interpP_le_head b _ _ (by norm_num; linarith)

/-- Beta above the last breakpoint 0.74965 clamps the low-loss table to
its last entry. -/
lemma interp_low_clamp_above (b : ℝ) (h : 0.74965 < b) :
    interp b venturi_tube_betas venturi_tube_dP_low = 0.039896 := by
  unfold interp venturi_tube_betas venturi_tube_dP_low
  refine interpP_of_forall_lt b _ (0.749650, 0.039896) rfl ?_
  intro p hp
  fin_cases hp <;> norm_num <;> linarith

/-- Beta at or below the first breakpoint 0.29916 clamps the low-loss
table to its first entry. -/
lemma interp_low_clamp_below (b : ℝ) (h : b ≤ 0.29916) :
    interp b venturi_tube_betas venturi_tube_dP_low = 0.089232 := by
  unfold interp venturi_tube_betas venturi_tube_dP_low
  simp only [List.zip_cons_cons]
  exact interpP_le_head b _ _ (by norm_num; linarith)

/-- C7: `dP_venturi_tube` returns `ε·(P1−P2)` with `ε` from the two-stage
interpolation, clamped at the endpoints: for `D ≤ 0.065` the diameter
stage returns the high-loss (D = 0.065) value, for `D ≥ 0.5` the low-loss
(D = 0.5) value, and the beta-stage lookup clamps to the nearest table
endpoint for beta at/below 0.29916 or above 0.74965. -/
theorem dP_venturi_tube_clamping : ∀ D Do P1 P2 : ℝ,
    (dP_venturi_tube D Do P1 P2 =
      interp D D_bound_venturi_tube
        [interp (Do/D) venturi_tube_betas venturi_tube_dP_high,
         interp (Do/D) venturi_tube_betas venturi_tube_dP_low] * (P1 - P2))
    ∧ (D ≤ 0.065 → dP_venturi_tube D Do P1 P2
        = interp (Do/D) venturi_tube_betas venturi_tube_dP_high * (P1 - P2))
    ∧ (0.5 ≤ D → dP_venturi_tube D Do P1 P2
        = interp (Do/D) venturi_tube_betas venturi_tube_dP_low * (P1 - P2))
    ∧ (Do/D ≤ 0.29916 →
        interp (Do/D) venturi_tube_betas venturi_tube_dP_high = 0.164534
        ∧ interp (Do/D) venturi_tube_betas venturi_tube_dP_low = 0.089232)
    ∧ (0.74965 < Do/D →
        interp (Do/D) venturi_tube_betas venturi_tube_dP_high = 0.087648
        ∧ interp (Do/D) venturi_tube_betas venturi_tube_dP_low = 0.039896) := by
  intro D Do P1 P2
  refine ⟨rfl, ?_, ?_,
    fun h => ⟨interp_high_clamp_below _ h, interp_low_clamp_below _ h⟩,
    fun h => ⟨interp_high_clamp_above _ h, interp_low_clamp_above _ h⟩⟩
  · intro hD
    unfold dP_venturi_tube interp D_bound_venturi_tube
    dsimp only
    simp only [List.zip_cons_cons, List.zip_nil_right]
    rw [interpP_le_head D _ _ (by norm_num; linarith)]
  · intro hD
    unfold dP_venturi_tube interp D_bound_venturi_tube
    dsimp only
    simp only [List.zip_cons_cons, List.zip_nil_right]
    rw [interpP_pair_right D 0.065 0.5 _ _ (by norm_num) hD]

/-- Witness for `dP_venturi_tube_clamping`: `D = 0.05 ≤ 0.065` selects the
high-loss stage and `beta = 0.8 > 0.74965` clamps to its last entry. -/
theorem dP_venturi_tube_clamping_witness :
    dP_venturi_tube 0.05 0.04 2 1 = 0.087648 * (2 - 1) := by
  have h := dP_venturi_tube_clamping 0.05 0.04 2 1
  rw [h.2.1 (by norm_num), (h.2.2.2.2 (by norm_num)).1]

/-- C9: for every `D, Do` with `0 < Do/D < 1`, every isentropic exponent
`k ≥ 1` and every pressure pair with `P1 > 0` and `0.80·P1 ≤ P2 ≤ P1`,
`orifice_expansibility` lies in `(0, 1]`, and equals exactly 1 when
`P2 = P1`. -/
theorem orifice_expansibility_unit_interval (D Do P1 P2 k : ℝ)
    (hb0 : 0 < Do/D) (hb1 : Do/D < 1) (hk : 1 ≤ k) (hP1 : 0 < P1)
    (hlo : 0.80*P1 ≤ P2) (hhi : P2 ≤ P1) :
    (0 < orifice_expansibility D Do P1 P2 k
      ∧ orifice_expansibility D Do P1 P2 k ≤ 1)
    ∧ (P2 = P1 → orifice_expansibility D Do P1 P2 k = 1) := by
  unfold orifice_expansibility
  dsimp only
  set β := Do/D with hβdef
  have hk0 : 0 < k := lt_of_lt_of_le one_pos hk
  have hik0 : 0 < 1/k := by positivity
  have hik1 : 1/k ≤ 1 := by rw [div_le_one hk0]; exact hk
  have hr_lo : (0.8:ℝ) ≤ P2/P1 := by rw [le_div_iff₀ hP1]; linarith
  have hr_hi : P2/P1 ≤ 1 := by rw [div_le_one hP1]; linarith
  have hr0 : (0:ℝ) ≤ P2/P1 := by linarith
  have hrp_le1 : (P2/P1) ^ (1/k) ≤ 1 := Real.rpow_le_one hr0 hr_hi hik0.le
  have hrp_ge : (0.8:ℝ) ≤ (P2/P1) ^ (1/k) := by
    have h08 : ((0.8:ℝ)) ^ (1/k) ≤ (P2/P1) ^ (1/k) :=
      Real.rpow_le_rpow (by norm_num) hr_lo hik0.le
    have h08c : (0.8:ℝ) ^ (1:ℝ) ≤ (0.8:ℝ) ^ (1/k) :=
      Real.rpow_le_rpow_of_exponent_ge (by norm_num) (by norm_num) hik1
    rw [Real.rpow_one] at h08c
    linarith
  have hβ4 : 0 < β^4 := by positivity
  have hβ8 : 0 < β^8 := by positivity
  have hβ4lt : β^4 < 1 := pow_lt_one₀ hb0.le hb1 (by norm_num)
  have hβ8lt : β^8 < 1 := pow_lt_one₀ hb0.le hb1 (by norm_num)
  have hcoef_pos : (0:ℝ) < 0.351 + 0.256*β^4 + 0.93*β^8 := by positivity
  have hcoef_lt : 0.351 + 0.256*β^4 + 0.93*β^8 < 1.537 := by nlinarith
  have hq0 : (0:ℝ) ≤ 1.0 - (P2/P1) ^ (1/k) := by linarith
  have hq2 : 1.0 - (P2/P1) ^ (1/k) ≤ 0.2 := by linarith
  have hprod : (0.351 + 0.256*β^4 + 0.93*β^8)*(1.0 - (P2/P1) ^ (1/k))
      ≤ 1.537*0.2 :=
    mul_le_mul hcoef_lt.le hq2 hq0 (by norm_num)
  have hprod0 : 0 ≤ (0.351 + 0.256*β^4 + 0.93*β^8)*(1.0 - (P2/P1) ^ (1/k)) :=
    mul_nonneg hcoef_pos.le hq0
  refine ⟨⟨by nlinarith, by nlinarith⟩, ?_⟩
  intro h
  rw [h, div_self (ne_of_gt hP1), Real.one_rpow]
  ring

/-- Witness for `orifice_expansibility_unit_interval` at
`D = 2, Do = 1, P1 = P2 = 1, k = 1.4`. -/
theorem orifice_expansibility_unit_interval_witness :
    orifice_expansibility 2 1 1 1 1.4 = 1 :=
  (orifice_expansibility_unit_interval 2 1 1 1 1.4 (by norm_num) (by norm_num)
    (by norm_num) (by norm_num) (by norm_num) (by norm_num)).2 rfl

/-- C3: for every `D, Do` with `0 < Do/D < 1` and every `C ∈ (0,1)`,
`K_to_discharge_coefficient(D, Do, discharge_coefficient_to_K(D, Do, C))`
recovers `C` exactly over the reals: the closed-form inverse selects the
physically valid root. -/
theorem K_discharge_roundtrip (D Do C : ℝ) (hb0 : 0 < Do/D) (hb1 : Do/D < 1)
    (hC0 : 0 < C) (hC1 : C < 1) :
    K_to_discharge_coefficient D Do (discharge_coefficient_to_K D Do C) = C := by
  unfold K_to_discharge_coefficient discharge_coefficient_to_K
  dsimp only
  set β := Do/D with hβ
  have hb2 : 0 < β*β := mul_pos hb0 hb0
  have hb4 : 0 < β*β*(β*β) := mul_pos hb2 hb2
  have hb2lt : β*β < 1 := by nlinarith
  have hb4lt : β*β*(β*β) < 1 := by nlinarith
  have hinnerpos : (0:ℝ) < 1.0 - β*β*(β*β)*(1.0 - C*C) := by nlinarith
  set S := Real.sqrt (1.0 - β*β*(β*β)*(1.0 - C*C)) with hSdef
  have hS2 : S^2 = 1.0 - β*β*(β*β)*(1.0 - C*C) := Real.sq_sqrt hinnerpos.le
  have hSpos : 0 < S := Real.sqrt_pos.mpr hinnerpos
  have hCb2 : 0 < C*(β*β) := mul_pos hC0 hb2
  have hSgt : C*(β*β) < S := by nlinarith [hS2, hSpos]
  have htpos : (0:ℝ) < S/(C*(β*β)) - 1.0 := by
    have h1 : (1:ℝ) < S/(C*(β*β)) := by
      rw [lt_div_iff₀ hCb2]
      linarith
    linarith
  have hsqrtK : Real.sqrt ((S/(C*(β*β)) - 1.0)^2) = S/(C*(β*β)) - 1.0 :=
    Real.sqrt_sq htpos.le
  rw [hsqrtK]
  have hC' : C ≠ 0 := ne_of_gt hC0
  have hb2' : β*β ≠ 0 := ne_of_gt hb2
  have hcommon : 2.0*(S/(C*(β*β)) - 1.0)*(β*β*(β*β))
      + (S/(C*(β*β)) - 1.0)^2*(β*β*(β*β)) = (1 - β*β*(β*β))/(C*C) := by
    field_simp
    linear_combination (C^3*(Do/D)^6) * hS2
  rw [hcommon]
  have h1mb4 : (0:ℝ) < 1 - β*β*(β*β) := by linarith
  have hrad : -(β*β*(β*β))/((1 - β*β*(β*β))/(C*C))
      + 1.0/((1 - β*β*(β*β))/(C*C)) = C^2 := by
    rw [div_div_eq_mul_div, div_div_eq_mul_div, div_add_div_same]
    rw [div_eq_iff (ne_of_gt h1mb4)]
    ring
  rw [hrad]
  exact Real.sqrt_sq hC0.le

/-- Witness for `K_discharge_roundtrip` at `D = 2`, `Do = 1`, `C = 1/2`. -/
theorem K_discharge_roundtrip_witness :
    K_to_discharge_coefficient 2 1 (discharge_coefficient_to_K 2 1 0.5) = 0.5 :=
  K_discharge_roundtrip 2 1 0.5 (by norm_num) (by norm_num) (by norm_num)
    (by norm_num)

/-- C4: for any recognised tap selection (giving parameters `L1`, `L2'`),
`C_Reader_Harris_Gallagher` returns the sum
`C_inf_Cs + ΔC_upstream + ΔC_downstream` where the downstream tap term is
`−0.031·(M2' − 0.8·M2'^1.1)·β^1.3` multiplied by the non-ISO extension
`(1 + 8·max(log10(3700/Re_D), 0))`, the slope term carries the non-ISO
factor `max((1e6/Re_D)^0.3, 22.7 − 4700·(Re_D/1e6))`, and the
small-diameter correction `0.011·(0.75−β)·max(2.8 − D/0.0254, 0)` is
added exactly when `D < 0.07112` m (and not when `D ≥ 0.07112`). -/
theorem C_RHG_term_structure (D Do rho mu m L1 L2_prime : ℝ) (taps : String)
    (htaps : orifice_taps_L D taps = .ok (L1, L2_prime)) :
    C_Reader_Harris_Gallagher D Do rho mu m taps =
      .ok ((0.5961 + 0.0261*((Do/D)*(Do/D))
            - 0.216*((Do/D)*(Do/D)*((Do/D)*(Do/D))*((Do/D)*(Do/D)*((Do/D)*(Do/D))))
            + 0.000521*(1000000.0*(Do/D)/Re_pipe D rho mu m) ^ (0.7 : ℝ)
            + (0.0188 + 0.0063*(19000.0*(Do/D)/Re_pipe D rho mu m) ^ (0.8 : ℝ))
              *(Do/D) ^ (3.5 : ℝ)
              *max ((1000000.0/Re_pipe D rho mu m) ^ (0.3 : ℝ))
                   (22.7 - 4700.0*(Re_pipe D rho mu m/1000000.0)))
        + (0.043 + 0.080*Real.exp (-10.0*L1) - 0.123*Real.exp (-7.0*L1))
            *(1.0 - 0.11*(19000.0*(Do/D)/Re_pipe D rho mu m) ^ (0.8 : ℝ))
            *((Do/D)*(Do/D)*((Do/D)*(Do/D)))/(1.0 - (Do/D)*(Do/D)*((Do/D)*(Do/D)))
        + (-0.031*(2*L2_prime/(1.0 - (Do/D))
              - 0.8*(2*L2_prime/(1.0 - (Do/D))) ^ (1.1 : ℝ))
            *(Do/D) ^ (1.3 : ℝ)
            *(1.0 + 8*max (Real.logb 10 (3700.0/Re_pipe D rho mu m)) 0.0))
        + if D < 0.07112 then 0.011*(0.75 - (Do/D))*max (2.8 - D/0.0254) 0.0
          else 0) := by
  unfold C_Reader_Harris_Gallagher
  rw [htaps]
  dsimp only [Re_pipe]
  split_ifs with hD
  · rfl
  · rw [add_zero]

/-- Witness for `C_RHG_term_structure`: a concrete corner-taps evaluation
succeeds. -/
theorem C_RHG_term_structure_witness :
    (C_Reader_Harris_Gallagher 0.07391 0.0222 1.165 0.0000185 0.12
        tapsCorner).isOk = true := by
  rw [C_RHG_term_structure 0.07391 0.0222 1.165 0.0000185 0.12 0.0 0.0
    tapsCorner (by simp +decide [orifice_taps_L, tapsCorner])]
  rfl

/-- Witness for `C_RHG_taps_selection`: the unrecognised tap string
`'invalid'` fails. -/
theorem C_RHG_taps_selection_witness :
    C_Reader_Harris_Gallagher 0.07391 0.0222 1.165 0.0000185 0.12 invalidTaps
      = .error .unsupportedTapLocation :=
  C_RHG_taps_selection.2.2.2.2 invalidTaps 0.07391 0.0222 1.165 0.0000185 0.12
    (by decide) (by decide) (by decide) (by decide)

/-- The real part of the 20-term truncated complex exponential series at
`y·I` is exactly `cosPoly y` (odd powers of `I` are purely imaginary). -/
lemma sum_exp_re20 (y : ℝ) :
    (∑ m ∈ Finset.range 20, ((y:ℂ)*Complex.I)^m/(m.factorial:ℂ)).re
      = cosPoly y := by
  have hz2 : ((y:ℂ)*Complex.I)^2 = -((y:ℂ)^2) := by
    rw [mul_pow, Complex.I_sq]
    ring
  have hpw3 : ((y:ℂ)*Complex.I)^3 = -((y:ℂ)^3)*Complex.I := by
    have e : ((y:ℂ)*Complex.I)^3 = (((y:ℂ)*Complex.I)^2)^1*((y:ℂ)*Complex.I) := by ring
    rw [e, hz2]
    ring
  have hpw4 : ((y:ℂ)*Complex.I)^4 = (y:ℂ)^4 := by
    have e : ((y:ℂ)*Complex.I)^4 = (((y:ℂ)*Complex.I)^2)^2 := by ring
    rw [e, hz2]
    ring
  have hpw5 : ((y:ℂ)*Complex.I)^5 = (y:ℂ)^5*Complex.I := by
    have e : ((y:ℂ)*Complex.I)^5 = (((y:ℂ)*Complex.I)^2)^2*((y:ℂ)*Complex.I) := by ring
    rw [e, hz2]
    ring
  have hpw6 : ((y:ℂ)*Complex.I)^6 = -((y:ℂ)^6) := by
    have e : ((y:ℂ)*Complex.I)^6 = (((y:ℂ)*Complex.I)^2)^3 := by ring
    rw [e, hz2]
    ring
  have hpw7 : ((y:ℂ)*Complex.I)^7 = -((y:ℂ)^7)*Complex.I := by
    have e : ((y:ℂ)*Complex.I)^7 = (((y:ℂ)*Complex.I)^2)^3*((y:ℂ)*Complex.I) := by ring
    rw [e, hz2]
    ring
  have hpw8 : ((y:ℂ)*Complex.I)^8 = (y:ℂ)^8 := by
    have e : ((y:ℂ)*Complex.I)^8 = (((y:ℂ)*Complex.I)^2)^4 := by ring
    rw [e, hz2]
    ring
  have hpw9 : ((y:ℂ)*Complex.I)^9 = (y:ℂ)^9*Complex.I := by
    have e : ((y:ℂ)*Complex.I)^9 = (((y:ℂ)*Complex.I)^2)^4*((y:ℂ)*Complex.I) := by ring
    rw [e, hz2]
    ring
  have hpw10 : ((y:ℂ)*Complex.I)^10 = -((y:ℂ)^10) := by
    have e : ((y:ℂ)*Complex.I)^10 = (((y:ℂ)*Complex.I)^2)^5 := by ring
    rw [e, hz2]
    ring
  have hpw11 : ((y:ℂ)*Complex.I)^11 = -((y:ℂ)^11)*Complex.I := by
    have e : ((y:ℂ)*Complex.I)^11 = (((y:ℂ)*Complex.I)^2)^5*((y:ℂ)*Complex.I) := by ring
    rw [e, hz2]
    ring
  have hpw12 : ((y:ℂ)*Complex.I)^12 = (y:ℂ)^12 := by
    have e : ((y:ℂ)*Complex.I)^12 = (((y:ℂ)*Complex.I)^2)^6 := by ring
    rw [e, hz2]
    ring
  have hpw13 : ((y:ℂ)*Complex.I)^13 = (y:ℂ)^13*Complex.I := by
    have e : ((y:ℂ)*Complex.I)^13 = (((y:ℂ)*Complex.I)^2)^6*((y:ℂ)*Complex.I) := by ring
    rw [e, hz2]
    ring
  have hpw14 : ((y:ℂ)*Complex.I)^14 = -((y:ℂ)^14) := by
    have e : ((y:ℂ)*Complex.I)^14 = (((y:ℂ)*Complex.I)^2)^7 := by ring
    rw [e, hz2]
    ring
  have hpw15 : ((y:ℂ)*Complex.I)^15 = -((y:ℂ)^15)*Complex.I := by
    have e : ((y:ℂ)*Complex.I)^15 = (((y:ℂ)*Complex.I)^2)^7*((y:ℂ)*Complex.I) := by ring
    rw [e, hz2]
    ring
  have hpw16 : ((y:ℂ)*Complex.I)^16 = (y:ℂ)^16 := by
    have e : ((y:ℂ)*Complex.I)^16 = (((y:ℂ)*Complex.I)^2)^8 := by ring
    rw [e, hz2]
    ring
  have hpw17 : ((y:ℂ)*Complex.I)^17 = (y:ℂ)^17*Complex.I := by
    have e : ((y:ℂ)*Complex.I)^17 = (((y:ℂ)*Complex.I)^2)^8*((y:ℂ)*Complex.I) := by ring
    rw [e, hz2]
    ring
  have hpw18 : ((y:ℂ)*Complex.I)^18 = -((y:ℂ)^18) := by
    have e : ((y:ℂ)*Complex.I)^18 = (((y:ℂ)*Complex.I)^2)^9 := by ring
    rw [e, hz2]
    ring
  have hpw19 : ((y:ℂ)*Complex.I)^19 = -((y:ℂ)^19)*Complex.I := by
    have e : ((y:ℂ)*Complex.I)^19 = (((y:ℂ)*Complex.I)^2)^9*((y:ℂ)*Complex.I) := by ring
    rw [e, hz2]
    ring
  simp only [Finset.sum_range_succ, Finset.sum_range_zero]
  rw [hz2, hpw3, hpw4, hpw5, hpw6, hpw7, hpw8, hpw9, hpw10]
  rw [hpw11, hpw12, hpw13, hpw14, hpw15, hpw16, hpw17, hpw18, hpw19]
  norm_num [Nat.factorial, cosPoly, Complex.add_re, Complex.div_re,
    Complex.mul_re, Complex.I_re, Complex.I_im, Complex.ofReal_re,
    Complex.ofReal_im, Complex.normSq, pow_one, Complex.add_im,
    ← Complex.ofReal_pow, Complex.mul_im, Complex.div_im]
  ring

/-- Taylor enclosure for `Real.cos` on `[-1, 1]`, from the 20-term
complex-exponential remainder bound. -/
lemma cos_cosPoly_bound (y : ℝ) (hy : |y| ≤ 1) :
    |Real.cos y - cosPoly y| ≤ |y|^20 * (21/48658040163532800000) := by
  have habs : Complex.abs ((y:ℂ)*Complex.I) ≤ 1 := by
    rwa [map_mul, Complex.abs_I, mul_one, Complex.abs_ofReal]
  have hb := @Complex.exp_bound ((y:ℂ)*Complex.I) habs 20 (by norm_num)
  have hre : (Complex.exp ((y:ℂ)*Complex.I)).re = Real.cos y :=
    Complex.exp_ofReal_mul_I_re y
  have hsum := sum_exp_re20 y
  have habs2 : |Real.cos y - cosPoly y|
      ≤ Complex.abs (Complex.exp ((y:ℂ)*Complex.I)
          - ∑ m ∈ Finset.range 20, ((y:ℂ)*Complex.I)^m/(m.factorial:ℂ)) := by
    rw [← hre, ← hsum, ← Complex.sub_re]
    exact Complex.abs_re_le_abs _
  refine le_trans habs2 (le_trans hb ?_)
  rw [map_mul, Complex.abs_I, mul_one, Complex.abs_ofReal]
  norm_num [Nat.factorial]


/-- Rational enclosure of `√0.21`. -/
lemma sqrt21_bounds : (0.4582575694955840006588:ℝ) ≤ Real.sqrt 0.21
    ∧ Real.sqrt 0.21 ≤ 0.4582575694955840006589 :=
  ⟨(Real.le_sqrt' (by norm_num)).mpr (by norm_num),
   Real.sqrt_le_iff.mpr ⟨by norm_num, by norm_num⟩⟩

/-- Rational lower bound for `arccos 0.4`, via `cos` monotonicity and the
Taylor enclosure at the half angle. -/
lemma arccos04_gt : (1.159279480727408599:ℝ) < Real.arccos 0.4 := by
  have hP := cos_cosPoly_bound 0.5796397403637042995 (by rw [abs_le]; constructor <;> norm_num)
  rw [abs_le] at hP
  have hEps : |(0.5796397403637042995:ℝ)|^20*(21/48658040163532800000)
      ≤ 1e-23 := by
    rw [abs_of_pos (by norm_num)]
    norm_num
  have hPlo : (0.836660026534075548209985:ℝ)
      ≤ cosPoly 0.5796397403637042995 - 1e-23 := by
    norm_num [cosPoly]
  have hcu : (0.836660026534075548209985:ℝ)
      ≤ Real.cos 0.5796397403637042995 := by
    have h1 := hP.1
    linarith
  have hca : Real.cos (1.159279480727408599:ℝ)
      = 2*Real.cos (0.5796397403637042995:ℝ)^2 - 1 := by
    rw [show (1.159279480727408599:ℝ) = 2*0.5796397403637042995 by norm_num,
      Real.cos_two_mul]
  have hcos04 : (0.4:ℝ) < Real.cos 1.159279480727408599 := by
    rw [hca]
    nlinarith [hcu]
  have hmem_a : (1.159279480727408599:ℝ) ∈ Set.Icc 0 π :=
    ⟨by norm_num, by linarith [Real.pi_gt_three]⟩
  have hmem_arc : Real.arccos 0.4 ∈ Set.Icc 0 π :=
    ⟨Real.arccos_nonneg _, Real.arccos_le_pi _⟩
  have hiff := Real.strictAntiOn_cos.lt_iff_lt hmem_arc hmem_a
  rw [Real.cos_arccos (by norm_num) (by norm_num)] at hiff
  exact hiff.mp hcos04

/-- Rational upper bound for `arccos 0.4`. -/
lemma arccos04_lt : Real.arccos 0.4 < 1.15927948072740860 := by
  have hP := cos_cosPoly_bound 0.57963974036370430 (by rw [abs_le]; constructor <;> norm_num)
  rw [abs_le] at hP
  have hEps : |(0.57963974036370430:ℝ)|^20*(21/48658040163532800000)
      ≤ 1e-23 := by
    rw [abs_of_pos (by norm_num)]
    norm_num
  have hPhi : cosPoly 0.57963974036370430 + 1e-23
      ≤ 0.836660026534075547936165 := by
    norm_num [cosPoly]
  have hcu : Real.cos (0.57963974036370430:ℝ)
      ≤ 0.836660026534075547936165 := by
    have h2 := hP.2
    linarith
  have hcb : Real.cos (1.15927948072740860:ℝ)
      = 2*Real.cos (0.57963974036370430:ℝ)^2 - 1 := by
    rw [show (1.15927948072740860:ℝ) = 2*0.57963974036370430 by norm_num,
      Real.cos_two_mul]
  have hcupos : (0:ℝ) < Real.cos 0.57963974036370430 := by
    have hPlo2 : (0.8:ℝ) ≤ cosPoly 0.57963974036370430 - 1e-23 := by
      norm_num [cosPoly]
    have h1 := hP.1
    linarith
  have hcos04 : Real.cos (1.15927948072740860:ℝ) < 0.4 := by
    rw [hcb]
    nlinarith [hcu, hcupos]
  have hmem_b : (1.15927948072740860:ℝ) ∈ Set.Icc 0 π :=
    ⟨by norm_num, by linarith [Real.pi_gt_three]⟩
  have hmem_arc : Real.arccos 0.4 ∈ Set.Icc 0 π :=
    ⟨Real.arccos_nonneg _, Real.arccos_le_pi _⟩
  have hiff := Real.strictAntiOn_cos.lt_iff_lt hmem_b hmem_arc
  rw [Real.cos_arccos (by norm_num) (by norm_num)] at hiff
  exact hiff.mp hcos04

/-- Closed form of `C_wedge_meter_Miller` at the claim's concrete input:
`D = 0.1524` falls in the large-pipe branch and `H/D = 0.3` makes the
segment-geometry terms collapse to `arccos 0.4` and `√0.21`. -/
lemma C_wedge_val : C_wedge_meter_Miller 0.1524 (0.3*0.1524)
    = 0.5433 + 0.2453*(1 - 1/π*(Real.arccos 0.4 - 0.8*Real.sqrt 0.21)) := by
  unfold C_wedge_meter_Miller diameter_ratio_wedge_meter inch
  dsimp only
  rw [if_neg (by norm_num), if_neg (by norm_num)]
  rw [show (1.0 - 2.0*((0.3*0.1524:ℝ)/0.1524)) = 0.4 by norm_num]
  rw [show ((0.3*0.1524:ℝ)/0.1524 - (0.3*0.1524)/0.1524*((0.3*0.1524)/0.1524))
      = 0.21 by norm_num]
  rw [show (2.0*(0.4:ℝ)) = 0.8 by norm_num]
  have ht4 : (0:ℝ) ≤ Real.arccos 0.4 - 0.8*Real.sqrt 0.21 := by
    have h1 := arccos04_gt
    have h2 := sqrt21_bounds.2
    linarith
  have hnn : (0:ℝ) ≤ 1/π*(Real.arccos 0.4 - 0.8*Real.sqrt 0.21) :=
    mul_nonneg (by positivity) ht4
  rw [Real.mul_self_sqrt hnn]

/-- The exact real value at the claim's input is strictly BELOW the
double-precision literal `0.7267069372687651`. -/
lemma C_wedge_upper :
    C_wedge_meter_Miller 0.1524 (0.3*0.1524) < 0.7267069372687651 := by
  rw [C_wedge_val]
  have hπl := Real.pi_gt_d20
  have hπu := Real.pi_lt_d20
  have hπ0 : (0:ℝ) < π := Real.pi_pos
  have hs := sqrt21_bounds
  have ha := arccos04_gt
  have hb := arccos04_lt
  have ht4lo : (1.159279480727408599:ℝ) - 0.8*0.4582575694955840006589
      ≤ Real.arccos 0.4 - 0.8*Real.sqrt 0.21 := by
    have := hs.2
    linarith
  have hq : ((1.159279480727408599:ℝ) - 0.8*0.4582575694955840006589)
        /3.14159265358979323847
      ≤ (Real.arccos 0.4 - 0.8*Real.sqrt 0.21)/π := by
    apply div_le_div₀ ?_ ht4lo hπ0 (le_of_lt hπu)
    have := hs.1
    linarith
  have hq' : 1/π*(Real.arccos 0.4 - 0.8*Real.sqrt 0.21)
      = (Real.arccos 0.4 - 0.8*Real.sqrt 0.21)/π := by ring
  rw [hq']
  nlinarith [hq]

/-- The exact real value at the claim's input is within `1e-12` of the
double-precision literal, from below. -/
lemma C_wedge_lower :
    0.7267069372687651 - 1e-12 < C_wedge_meter_Miller 0.1524 (0.3*0.1524) := by
  rw [C_wedge_val]
  have hπl := Real.pi_gt_d20
  have hπ0 : (0:ℝ) < π := Real.pi_pos
  have hs := sqrt21_bounds
  have hb := arccos04_lt
  have ha := arccos04_gt
  have ht4hi : Real.arccos 0.4 - 0.8*Real.sqrt 0.21
      ≤ (1.15927948072740860:ℝ) - 0.8*0.4582575694955840006588 := by
    have := hs.1
    linarith
  have ht4nn : (0:ℝ) ≤ Real.arccos 0.4 - 0.8*Real.sqrt 0.21 := by
    have := hs.2
    linarith
  have hq : (Real.arccos 0.4 - 0.8*Real.sqrt 0.21)/π
      ≤ ((1.15927948072740860:ℝ) - 0.8*0.4582575694955840006588)
        /3.14159265358979323846 := by
    apply div_le_div₀ (by norm_num) ht4hi (by norm_num) (le_of_lt hπl)
  have hq' : 1/π*(Real.arccos 0.4 - 0.8*Real.sqrt 0.21)
      = (Real.arccos 0.4 - 0.8*Real.sqrt 0.21)/π := by ring
  rw [hq']
  nlinarith [hq]


/-- C8 counterexample: over the reals the claimed exact equality
`C_wedge_meter_Miller(D=0.1524, H=0.3·0.1524) = 0.7267069372687651` is
false: the decimal literal is the IEEE-double value, and the exact real
value is smaller (by about 4.5e-17). -/
theorem C_wedge_meter_Miller_literal_ne :
    C_wedge_meter_Miller 0.1524 (0.3*0.1524) ≠ 0.7267069372687651 :=
  ne_of_lt C_wedge_upper

/-- C8 (amended): `C_wedge_meter_Miller` computes beta via
`diameter_ratio_wedge_meter` and returns `0.7883 + 0.107·(1−β²)` for
`D ≤ 0.7·0.0254`, `0.6143 + 0.718·(1−β²)` for
`0.7·0.0254 < D ≤ 1.4·0.0254` and `0.5433 + 0.2453·(1−β²)` above, with
inclusive-≤ breakpoints and one inch exactly 0.0254 m; at
`D = 0.1524, H = 0.3·0.1524` the value agrees with `0.7267069372687651`
to within `1e-12` (but not exactly; see the counterexample). -/
theorem C_wedge_meter_Miller_piecewise :
    (∀ D H : ℝ, D ≤ 0.7*inch →
      C_wedge_meter_Miller D H = 0.7883 + 0.107*(1
        - diameter_ratio_wedge_meter D H*diameter_ratio_wedge_meter D H))
    ∧ (∀ D H : ℝ, 0.7*inch < D → D ≤ 1.4*inch →
      C_wedge_meter_Miller D H = 0.6143 + 0.718*(1
        - diameter_ratio_wedge_meter D H*diameter_ratio_wedge_meter D H))
    ∧ (∀ D H : ℝ, 1.4*inch < D →
      C_wedge_meter_Miller D H = 0.5433 + 0.2453*(1
        - diameter_ratio_wedge_meter D H*diameter_ratio_wedge_meter D H))
    ∧ inch = 0.0254
    ∧ |C_wedge_meter_Miller 0.1524 (0.3*0.1524) - 0.7267069372687651|
        < 1e-12 := by
  refine ⟨?_, ?_, ?_, rfl, ?_⟩
  · intro D H h
    unfold C_wedge_meter_Miller
    dsimp only
    rw [if_pos h]
  · intro D H h1 h2
    unfold C_wedge_meter_Miller
    dsimp only
    rw [if_neg (not_le.mpr h1), if_pos h2]
  · intro D H h
    have h1 : ¬(D ≤ 0.7*inch) := by
      simp only [inch] at h ⊢
      push_neg
      linarith
    unfold C_wedge_meter_Miller
    dsimp only
    rw [if_neg h1, if_neg (not_le.mpr h)]
  · rw [abs_lt]
    constructor
    · linarith [C_wedge_lower]
    · linarith [C_wedge_upper]

/-- Witness for `C_wedge_meter_Miller_piecewise`: the large-pipe branch
evaluated at the claim's input. -/
theorem C_wedge_meter_Miller_piecewise_witness :
    C_wedge_meter_Miller 0.1524 (0.3*0.1524)
      = 0.5433 + 0.2453*(1 - diameter_ratio_wedge_meter 0.1524 (0.3*0.1524)
          *diameter_ratio_wedge_meter 0.1524 (0.3*0.1524)) :=
  C_wedge_meter_Miller_piecewise.2.2.1 0.1524 (0.3*0.1524) (by norm_num [inch])

end FlowMeter
